import Mathlib

/-!
Verification of the loan-document processing core of the repository:
the Content Understanding client's submit/poll job engine
(`ContentUnderstandingClient.analyze_document` / `_poll_for_result`),
the pure extraction pipeline (`extract_loan_fields`), and the tool
dispatcher (`call_tool`), as implemented in
`src/loan_processor/mcp_server.py` (the Azure Functions variant in
`azure-functions/function_app.py` shares the same logic).

Python values flowing through these functions are JSON-shaped; we embed
them as the inductive `JValue`.  Fallible Python code (attribute errors
on non-dict values, ValueError / TimeoutError raises) is embedded with
`Except PyError`.  String operations are modelled over code-point lists,
matching Python semantics on the ASCII data these documents carry.
-/

/-- A JSON-shaped Python value: None, str, number, bool, list, dict.
`obj` represents a Python dict as an association list with distinct keys
(insertion order preserved); lookups take the first matching key. -/
inductive JValue where
  | null : JValue
  | str (s : String) : JValue
  | num (q : ℚ) : JValue
  | bool (b : Bool) : JValue
  | arr (xs : List JValue) : JValue
  | obj (kvs : List (String × JValue)) : JValue

/-- The Python exceptions that the embedded code can raise. -/
inductive PyError where
  | attributeError : PyError
  | typeError : PyError
  | indexError : PyError
  | keyError : PyError
  | valueError (msg : String) : PyError
  | timeoutError (msg : String) : PyError
  | httpStatusError (code : Nat) : PyError
deriving DecidableEq

/-- First-match lookup in a dict's association list (Python dict lookup;
keys are unique by the `obj` invariant). -/
def dictLookup (kvs : List (String × JValue)) (k : String) : Option JValue :=
  (kvs.find? (fun p => p.1 = k)).map (fun p => p.2)

/-- Python `d.get(k, dflt)`: returns the entry or the default on a dict,
raises AttributeError on any non-dict value. -/
def dictGet (v : JValue) (k : String) (dflt : JValue) : Except PyError JValue :=
  match v with
  | .obj kvs => .ok ((dictLookup kvs k).getD dflt)
  | _ => .error .attributeError

/-- Python dict assignment `d[k] = v`: replaces the value in place if the
key is present, otherwise appends a new entry. -/
def dictSet (kvs : List (String × JValue)) (k : String) (v : JValue) :
    List (String × JValue) :=
  match kvs with
  | [] => [(k, v)]
  | (k', v') :: rest => if k' = k then (k, v) :: rest else (k', v') :: dictSet rest k v

/-- Python truthiness of a JSON-shaped value. -/
def pyTruthy : JValue → Bool
  | .null => false
  | .str s => !(s = "")
  | .num q => !(q = 0)
  | .bool b => b
  | .arr xs => !xs.isEmpty
  | .obj kvs => !kvs.isEmpty

/-- Python `xs[0]` (indexing a list or a string; a dict raises KeyError on
the absent key 0, other values raise TypeError). -/
def pyIndex0 (v : JValue) : Except PyError JValue :=
  match v with
  | .arr (x :: _) => .ok x
  | .arr [] => .error .indexError
  | .str s =>
      match s.toList with
      | c :: _ => .ok (.str (String.mk [c]))
      | [] => .error .indexError
  | .obj _ => .error .keyError
  | _ => .error .typeError

/-- Python iteration `for x in v`: elements of a list, one-character
strings of a string, the keys of a dict; other values raise TypeError. -/
def pyIterList (v : JValue) : Except PyError (List JValue) :=
  match v with
  | .arr xs => .ok xs
  | .str s => .ok (s.toList.map (fun c => .str (String.mk [c])))
  | .obj kvs => .ok (kvs.map (fun p => .str p.1))
  | _ => .error .typeError

/-- Python `str.lower()` over code points (ASCII case mapping, which is
all these documents use). -/
def pyLower (s : String) : String := String.mk (s.toList.map Char.toLower)

/-- Python `str.strip()`: drop leading and trailing whitespace. -/
def pyStrip (s : String) : String :=
  String.mk (((s.toList.dropWhile Char.isWhitespace).reverse.dropWhile
    Char.isWhitespace).reverse)

/-- Python `s.replace(c, "")` for a one-character pattern: removes every
occurrence of the character. -/
def pyRemoveChar (s : String) (c : Char) : String :=
  String.mk (s.toList.filter (fun d => !(d = c)))

/-- Python slicing `s[:n]` over code points. -/
def pySlice (s : String) (n : Nat) : String := String.mk (s.toList.take n)

/-- The value of a run of decimal digits. -/
def digitsVal (cs : List Char) : Nat :=
  cs.foldl (fun a c => 10 * a + (c.toNat - 48)) 0

/-- Python `float(s)` on a finite decimal literal: optional surrounding
whitespace, optional sign, digits with an optional decimal point, and an
optional exponent; any other string raises ValueError, embedded as
`none`.  (The inf / nan literals and digit-group underscores accepted by
CPython do not occur in this data and are not modelled.) -/
def pyFloat (s : String) : Option ℚ :=
  let cs := (pyStrip s).toList
  let sgncs : ℚ × List Char :=
    match cs with
    | '+' :: r => (1, r)
    | '-' :: r => (-1, r)
    | _ => (1, cs)
  let sgn := sgncs.1
  let cs := sgncs.2
  let ip := cs.takeWhile Char.isDigit
  let cs := cs.dropWhile Char.isDigit
  let fpcs : List Char × List Char :=
    match cs with
    | '.' :: r => (r.takeWhile Char.isDigit, r.dropWhile Char.isDigit)
    | _ => ([], cs)
  let fp := fpcs.1
  let cs := fpcs.2
  let excs : Option (ℤ × List Char) :=
    match cs with
    | 'e' :: r =>
        match r with
        | '+' :: r2 => if r2.takeWhile Char.isDigit = [] then none
            else some ((digitsVal (r2.takeWhile Char.isDigit) : ℤ), r2.dropWhile Char.isDigit)
        | '-' :: r2 => if r2.takeWhile Char.isDigit = [] then none
            else some (-(digitsVal (r2.takeWhile Char.isDigit) : ℤ), r2.dropWhile Char.isDigit)
        | _ => if r.takeWhile Char.isDigit = [] then none
            else some ((digitsVal (r.takeWhile Char.isDigit) : ℤ), r.dropWhile Char.isDigit)
    | 'E' :: r =>
        match r with
        | '+' :: r2 => if r2.takeWhile Char.isDigit = [] then none
            else some ((digitsVal (r2.takeWhile Char.isDigit) : ℤ), r2.dropWhile Char.isDigit)
        | '-' :: r2 => if r2.takeWhile Char.isDigit = [] then none
            else some (-(digitsVal (r2.takeWhile Char.isDigit) : ℤ), r2.dropWhile Char.isDigit)
        | _ => if r.takeWhile Char.isDigit = [] then none
            else some ((digitsVal (r.takeWhile Char.isDigit) : ℤ), r.dropWhile Char.isDigit)
    | _ => some (0, cs)
  match excs with
  | none => none
  | some (ex, cs) =>
      if cs = [] ∧ ¬(ip = [] ∧ fp = []) then
        some (sgn * ((digitsVal ip : ℚ) + (digitsVal fp : ℚ) / (10 : ℚ) ^ fp.length)
          * (10 : ℚ) ^ ex)
      else none

/-- The extracted loan application record (`LoanApplicationData` in the
source, a pydantic model whose fields all default to None).  String-ish
fields hold whatever value the evidence lookup produced; the numeric
fields hold successfully parsed numbers. -/
structure LoanApplicationData where
  applicant_name : Option JValue := none
  ssn_last_4 : Option String := none
  annual_income : Option ℚ := none
  employment_status : Option JValue := none
  employer_name : Option JValue := none
  loan_amount_requested : Option ℚ := none
  loan_purpose : Option JValue := none
  property_address : Option JValue := none
  confidence_score : Option ℚ := none
  raw_markdown : Option String := none

/-- Synonym priority list for the applicant name field. -/
def applicantNameKeys : List String :=
  ["applicant name", "borrower name", "name", "full name", "applicant"]

/-- Synonym priority list for the SSN field. -/
def ssnKeys : List String :=
  ["ssn", "social security", "social security number", "ssn (last 4)"]

/-- Synonym priority list for the annual income field. -/
def incomeKeys : List String :=
  ["annual income", "yearly income", "income", "gross income", "annual salary"]

/-- Synonym priority list for the employment status field. -/
def employmentKeys : List String :=
  ["employment status", "employment", "work status"]

/-- Synonym priority list for the employer name field. -/
def employerKeys : List String :=
  ["employer", "employer name", "company", "current employer"]

/-- Synonym priority list for the requested loan amount field. -/
def loanAmountKeys : List String :=
  ["loan amount", "amount requested", "requested amount", "loan amount requested"]

/-- Synonym priority list for the loan purpose field. -/
def loanPurposeKeys : List String :=
  ["loan purpose", "purpose", "purpose of loan", "loan type"]

/-- Synonym priority list for the property address field. -/
def propertyAddressKeys : List String :=
  ["property address", "address", "property", "subject property"]

/-- The eight per-field synonym lists of `extract_loan_fields`, in source
order. -/
def fieldSynonymTable : List (List String) :=
  [applicantNameKeys, ssnKeys, incomeKeys, employmentKeys, employerKeys,
   loanAmountKeys, loanPurposeKeys, propertyAddressKeys]

/-- The per-field lookup loop of `extract_loan_fields`:
for key in keys: if key in kv_lookup: take kv_lookup[key] and break. -/
def firstMatch (lookup : List (String × JValue)) : List String → Option JValue
  | [] => none
  | k :: rest =>
      match dictLookup lookup k with
      | some v => some v
      | none => firstMatch lookup rest

/-- One iteration of the kv-lookup construction loop:
key = kv.get("key", \x7b\x7d).get("content", "").lower().strip() and
value = kv.get("value", \x7b\x7d).get("content", "").  Calling lower on a
non-string key content raises AttributeError. -/
def kvEntry (kv : JValue) : Except PyError (String × JValue) := do
  let keyObj ← dictGet kv "key" (.obj [])
  let keyContentV ← dictGet keyObj "content" (.str "")
  let key ← match keyContentV with
    | .str s => Except.ok (pyStrip (pyLower s))
    | _ => Except.error PyError.attributeError
  let valObj ← dictGet kv "value" (.obj [])
  let valueV ← dictGet valObj "content" (.str "")
  .ok (key, valueV)

/-- The kv-lookup construction loop of `extract_loan_fields`: entries with
a falsy normalized key or falsy value are skipped, the rest assigned into
the dict (so a duplicate key is overwritten by a later valid entry). -/
def buildKvLookup : List JValue → List (String × JValue) →
    Except PyError (List (String × JValue))
  | [], acc => .ok acc
  | kv :: rest, acc => do
      let e ← kvEntry kv
      buildKvLookup rest
        (if ¬(e.1 = "") ∧ pyTruthy e.2 then dictSet acc e.1 e.2 else acc)

/-- The Python digit characters of a string
("".join(filter(str.isdigit, s)) over ASCII data). -/
def pyDigits (s : String) : List Char := s.toList.filter Char.isDigit

/-- SSN handling of a matched evidence value: keep the digit characters;
if at least four, take the last four (digits[-4:]); the value must be a
string to be iterable by characters, otherwise TypeError. -/
def ssnFromValue (v : JValue) : Except PyError (Option String) :=
  match v with
  | .str s =>
      .ok (if 4 ≤ (pyDigits s).length
        then some (String.mk ((pyDigits s).drop ((pyDigits s).length - 4)))
        else none)
  | _ => .error .typeError

/-- Numeric handling of a matched evidence value:
float(value.replace(",", "").replace("$", "")) with ValueError caught
(parse failure yields none); .replace on a non-string raises
AttributeError. -/
def moneyFromValue (v : JValue) : Except PyError (Option ℚ) :=
  match v with
  | .str s => .ok (pyFloat (pyRemoveChar (pyRemoveChar s ',') '$'))
  | _ => .error .attributeError

/-- The SSN block of `extract_loan_fields` (match then process). -/
def ssnStep (lookup : List (String × JValue)) : Except PyError (Option String) :=
  match firstMatch lookup ssnKeys with
  | none => .ok none
  | some v => ssnFromValue v

/-- The annual income block of `extract_loan_fields`. -/
def incomeStep (lookup : List (String × JValue)) : Except PyError (Option ℚ) :=
  match firstMatch lookup incomeKeys with
  | none => .ok none
  | some v => moneyFromValue v

/-- The loan amount block of `extract_loan_fields`. -/
def amountStep (lookup : List (String × JValue)) : Except PyError (Option ℚ) :=
  match firstMatch lookup loanAmountKeys with
  | none => .ok none
  | some v => moneyFromValue v

/-- The confidence collection loop: for each value in fields.values(), if
it is a dict containing "confidence", collect that number (booleans count
as 0 or 1; summing any other value raises TypeError). -/
def confValues : List JValue → Except PyError (List ℚ)
  | [] => .ok []
  | v :: rest =>
      match v with
      | .obj kvs =>
          match dictLookup kvs "confidence" with
          | some c =>
              match (match c with
                | .num q => Except.ok q
                | .bool b => Except.ok (if b then (1 : ℚ) else 0)
                | _ => Except.error PyError.typeError : Except PyError ℚ) with
              | .error e => .error e
              | .ok q =>
                  match confValues rest with
                  | .error e => .error e
                  | .ok qs => .ok (q :: qs)
          | none => confValues rest
      | _ => confValues rest

/-- The confidence score block of `extract_loan_fields`: the arithmetic
mean of the collected confidences, absent when none were found;
fields.values() on a non-dict raises AttributeError. -/
def confidenceOf (fields : JValue) : Except PyError (Option ℚ) :=
  match fields with
  | .obj kvs => do
      let confs ← confValues (kvs.map (fun p => p.2))
      .ok (if confs.isEmpty then none else some (confs.sum / (confs.length : ℚ)))
  | _ => .error .attributeError

/-- raw_markdown := markdown[:2000] if markdown else None. -/
def rawMarkdownOf (markdown : String) : Option String :=
  if markdown = "" then none else some (pySlice markdown 2000)

/-- The field-population part of `extract_loan_fields`, given the section
markdown, the built kv lookup and the structured fields map.  The blocks
run in source order (SSN, income, amount, confidence are the only ones
that can raise). -/
def extractFromLookup (markdown : String) (lookup : List (String × JValue))
    (fields : JValue) : Except PyError LoanApplicationData := do
  let ssn ← ssnStep lookup
  let income ← incomeStep lookup
  let amount ← amountStep lookup
  let conf ← confidenceOf fields
  .ok { applicant_name := firstMatch lookup applicantNameKeys
        ssn_last_4 := ssn
        annual_income := income
        employment_status := firstMatch lookup employmentKeys
        employer_name := firstMatch lookup employerKeys
        loan_amount_requested := amount
        loan_purpose := firstMatch lookup loanPurposeKeys
        property_address := firstMatch lookup propertyAddressKeys
        confidence_score := conf
        raw_markdown := rawMarkdownOf markdown }

/-- Slicing markdown[:2000] requires a string (a non-string truthy value
would raise TypeError at the slice). -/
def pyAsStr (v : JValue) : Except PyError String :=
  match v with
  | .str s => .ok s
  | _ => .error .typeError

/-- `extract_loan_fields` of mcp_server.py: unpack the first content
section of the analysis result, build the kv lookup, and populate the
record; an empty contents list yields the all-default record. -/
def extract_loan_fields (analysis_result : JValue) :
    Except PyError LoanApplicationData := do
  let resV ← dictGet analysis_result "result" (.obj [])
  let contents ← dictGet resV "contents" (.arr [])
  if pyTruthy contents = false then
    .ok {}
  else do
    let content ← pyIndex0 contents
    let markdownV ← dictGet content "markdown" (.str "")
    let fields ← dictGet content "fields" (.obj [])
    let kvPairsV ← dictGet content "keyValuePairs" (.arr [])
    let kvList ← pyIterList kvPairsV
    let lookup ← buildKvLookup kvList []
    let markdown ← pyAsStr markdownV
    extractFromLookup markdown lookup fields

/-- An HTTP response to one poll GET: its status code and parsed JSON
body. -/
structure PollResponse where
  statusCode : Nat
  body : JValue

/-- Outcome of a run of the polling loop: the returned result or raised
error, the total time slept, and how many poll requests were issued. -/
structure PollRun where
  result : Except PyError JValue
  elapsed : Nat
  attempts : Nat

/-- The poll attempt bound of `_poll_for_result` (range(60)). -/
def maxPollAttempts : Nat := 60

/-- The inter-attempt delay of `_poll_for_result` (asyncio.sleep(2)). -/
def pollDelaySeconds : Nat := 2

/-- The body of the polling loop of
`ContentUnderstandingClient._poll_for_result`, one recursion step per
remaining attempt: sleep the fixed delay, GET the operation location,
raise for HTTP status, read result.get("status", ""); return the result
on "Succeeded", raise ValueError on "Failed" or "Canceled", keep polling
on anything else; raise TimeoutError when attempts are exhausted. -/
def pollAux (poll : Nat → PollResponse) : Nat → Nat → Nat → Nat → PollRun
  | 0, _, clock, att =>
      ⟨.error (.timeoutError "Document analysis timed out"), clock, att⟩
  | fuel + 1, i, clock, att =>
      let clock := clock + pollDelaySeconds
      let resp := poll i
      let att := att + 1
      if 400 ≤ resp.statusCode then
        ⟨.error (.httpStatusError resp.statusCode), clock, att⟩
      else
        match dictGet resp.body "status" (.str "") with
        | .error e => ⟨.error e, clock, att⟩
        | .ok sv =>
            match sv with
            | .str t =>
                if t = "Succeeded" then ⟨.ok resp.body, clock, att⟩
                else if t = "Failed" ∨ t = "Canceled" then
                  ⟨.error (.valueError ("Analysis failed with status: " ++ t)),
                    clock, att⟩
                else pollAux poll fuel (i + 1) clock att
            | _ => pollAux poll fuel (i + 1) clock att

/-- `_poll_for_result`, applied to the backend's per-attempt responses for
the operation location being polled. -/
def pollForResult (poll : Nat → PollResponse) : PollRun :=
  pollAux poll maxPollAttempts 0 0 0

/-- The submission response: HTTP status and the Operation-Location
header (response.headers.get("Operation-Location")). -/
structure SubmitResponse where
  statusCode : Nat
  operationLocation : Option String

/-- The analysis backend as an oracle: a submission response per document
URL and a poll response per operation location and attempt index. -/
structure BackendOracle where
  submit : JValue → SubmitResponse
  poll : String → Nat → PollResponse

/-- Observable backend interactions of one job run. -/
inductive BackendEvent where
  | submitted (url : JValue) : BackendEvent
  | polled (loc : String) (attempt : Nat) : BackendEvent

/-- `ContentUnderstandingClient.analyze_document`: POST the submission,
raise for HTTP status, require a truthy Operation-Location header
(raising ValueError otherwise), then hand the location to the polling
loop.  Alongside the result we record the backend interactions. -/
def analyze_document (oracle : BackendOracle) (document_url : JValue) :
    Except PyError JValue × List BackendEvent :=
  let resp := oracle.submit document_url
  if 400 ≤ resp.statusCode then
    (.error (.httpStatusError resp.statusCode), [.submitted document_url])
  else
    match resp.operationLocation with
    | none =>
        (.error (.valueError "No Operation-Location header in response"),
          [.submitted document_url])
    | some loc =>
        if loc = "" then
          (.error (.valueError "No Operation-Location header in response"),
            [.submitted document_url])
        else
          let run := pollForResult (oracle.poll loc)
          (run.result,
            .submitted document_url ::
              (List.range run.attempts).map (fun i => .polled loc i))

/-- One content block of a tool response.  The success branch of
extract_loan_data serializes the record with json.dumps; we keep the
record itself, since no claim depends on the concrete rendering. -/
inductive ToolContent where
  | jsonRecord (d : LoanApplicationData) : ToolContent
  | plainText (s : String) : ToolContent

/-- A tool invocation's response blocks together with the backend
interactions it performed. -/
structure ToolCallResult where
  response : List ToolContent
  events : List BackendEvent

/-- Abbreviated str(e) renderings used in the "Error: ..." texts; only
the ValueError / TimeoutError messages carry source-specified text. -/
def pyErrMessage : PyError → String
  | .valueError m => m
  | .timeoutError m => m
  | .attributeError => "object has no attribute"
  | .typeError => "type error"
  | .indexError => "list index out of range"
  | .keyError => "key error"
  | .httpStatusError c => "HTTP status error " ++ toString c

/-- The `call_tool` dispatcher of mcp_server.py: extract_loan_data and
get_document_text validate document_url before any backend call, run the
job engine inside try/except (errors become "Error: ..." text blocks),
and any other tool name returns the unknown-tool text with no backend
interaction. -/
def call_tool (oracle : BackendOracle) (name : String)
    (arguments : List (String × JValue)) : ToolCallResult :=
  if name = "extract_loan_data" then
    match dictLookup arguments "document_url" with
    | none => ⟨[.plainText "Error: document_url is required"], []⟩
    | some url =>
        if pyTruthy url = false then
          ⟨[.plainText "Error: document_url is required"], []⟩
        else
          let ra := analyze_document oracle url
          match ra.1 with
          | .error e => ⟨[.plainText ("Error: " ++ pyErrMessage e)], ra.2⟩
          | .ok result =>
              match extract_loan_fields result with
              | .error e => ⟨[.plainText ("Error: " ++ pyErrMessage e)], ra.2⟩
              | .ok loan_data => ⟨[.jsonRecord loan_data], ra.2⟩
  else if name = "get_document_text" then
    match dictLookup arguments "document_url" with
    | none => ⟨[.plainText "Error: document_url is required"], []⟩
    | some url =>
        if pyTruthy url = false then
          ⟨[.plainText "Error: document_url is required"], []⟩
        else
          let ra := analyze_document oracle url
          match ra.1 with
          | .error e => ⟨[.plainText ("Error: " ++ pyErrMessage e)], ra.2⟩
          | .ok result =>
              match (do
                  let r ← dictGet result "result" (.obj [])
                  dictGet r "contents" (.arr [])) with
              | .error e => ⟨[.plainText ("Error: " ++ pyErrMessage e)], ra.2⟩
              | .ok contents =>
                  if pyTruthy contents then
                    match (do
                        let c ← pyIndex0 contents
                        dictGet c "markdown" (.str "")) with
                    | .error e =>
                        ⟨[.plainText ("Error: " ++ pyErrMessage e)], ra.2⟩
                    | .ok (.str md) => ⟨[.plainText md], ra.2⟩
                    | .ok _ =>
                        ⟨[.plainText "Error: text must be a string"], ra.2⟩
                  else
                    ⟨[.plainText "No content extracted from document"], ra.2⟩
  else
    ⟨[.plainText ("Unknown tool: " ++ name)], []⟩

/-- A well-shaped key/value evidence entry as the backend produces it:
a dict with "key" and "value" dicts holding string "content". -/
def mkKvPair (kc vc : String) : JValue :=
  .obj [("key", .obj [("content", .str kc)]),
        ("value", .obj [("content", .str vc)])]

/-- The kv-lookup construction loop specialized to well-shaped evidence
pairs given as (key content, value content) strings: normalize the key,
skip entries with an empty normalized key or empty value, assign the
rest. -/
def buildStrLookup : List (String × String) → List (String × JValue) →
    List (String × JValue)
  | [], acc => acc
  | (kc, vc) :: rest, acc =>
      let key := pyStrip (pyLower kc)
      buildStrLookup rest
        (if ¬(key = "") ∧ ¬(vc = "") then dictSet acc key (.str vc) else acc)

/-- The evidence pairs that survive the construction loop's filter, with
their normalized keys. -/
def retainedPairs (ps : List (String × String)) : List (String × String) :=
  ps.filterMap (fun p =>
    let k := pyStrip (pyLower p.1)
    if ¬(k = "") ∧ ¬(p.2 = "") then some (k, p.2) else none)

/-- An analysis result whose single content section carries the given
markdown text and nothing else. -/
def mkAnalysisWithMarkdown (md : String) : JValue :=
  .obj [("result", .obj [("contents", .arr [.obj [("markdown", .str md)]])])]

/-- An analysis result whose single content section carries the given
key/value evidence pairs and nothing else. -/
def mkAnalysisWithPairs (pairs : List (String × String)) : JValue :=
  .obj [("result", .obj [("contents", .arr [.obj
    [("keyValuePairs", .arr (pairs.map (fun p => mkKvPair p.1 p.2)))]])])]

/-- A poll response counts as in-progress when its HTTP status is OK and
its body's "status" is readable but is neither the success sentinel nor a
terminal failure sentinel (unrecognized statuses keep polling). -/
def isInProgressResponse (resp : PollResponse) : Bool :=
  if 400 ≤ resp.statusCode then false
  else
    match dictGet resp.body "status" (.str "") with
    | .ok (.str t) => ¬(t = "Succeeded") ∧ ¬(t = "Failed") ∧ ¬(t = "Canceled")
    | .ok _ => true
    | .error _ => false

/-- A poll response reporting the success sentinel over an OK HTTP
status. -/
def isSucceededResponse (resp : PollResponse) : Bool :=
  if 400 ≤ resp.statusCode then false
  else
    match dictGet resp.body "status" (.str "") with
    | .ok (.str t) => t = "Succeeded"
    | _ => false

/-- Shape discipline for one value of the structured fields map: if it is
a dict carrying "confidence", that confidence is a number or a boolean
(anything else would poison the sum). -/
def wellShapedConfidence (v : JValue) : Bool :=
  match v with
  | .obj kvs =>
      match dictLookup kvs "confidence" with
      | some (.num _) => true
      | some (.bool _) => true
      | some _ => false
      | none => true
  | _ => true

/-- Shape discipline for one key/value evidence entry: a dict whose
"key" and "value", when present, are dicts whose "content", when
present, is a string. -/
def wellShapedKvEntry (kv : JValue) : Bool :=
  match kv with
  | .obj kvs =>
      (match dictLookup kvs "key" with
       | some (.obj kkvs) =>
           match dictLookup kkvs "content" with
           | some (.str _) => true
           | none => true
           | some _ => false
       | none => true
       | some _ => false) &&
      (match dictLookup kvs "value" with
       | some (.obj vkvs) =>
           match dictLookup vkvs "content" with
           | some (.str _) => true
           | none => true
           | some _ => false
       | none => true
       | some _ => false)
  | _ => false

/-- Shape discipline for the first content section: a dict whose
markdown, when present, is a string, whose fields, when present, is a
dict of well-shaped values, and whose keyValuePairs, when present, is a
list of well-shaped entries. -/
def wellShapedContent (c : JValue) : Bool :=
  match c with
  | .obj kvs =>
      (match dictLookup kvs "markdown" with
       | some (.str _) => true
       | none => true
       | some _ => false) &&
      (match dictLookup kvs "fields" with
       | some (.obj fkvs) => (fkvs.map (fun p => p.2)).all wellShapedConfidence
       | none => true
       | some _ => false) &&
      (match dictLookup kvs "keyValuePairs" with
       | some (.arr kvl) => kvl.all wellShapedKvEntry
       | none => true
       | some _ => false)
  | _ => false

/-- Shape discipline for a whole analysis result: a dict whose "result",
when present, is a dict whose "contents", when present, is a list whose
first element (if any) is a well-shaped content section. -/
def wellShapedAnalysis (a : JValue) : Bool :=
  match a with
  | .obj kvs =>
      match dictLookup kvs "result" with
      | some (.obj rkvs) =>
          (match dictLookup rkvs "contents" with
           | some (.arr []) => true
           | some (.arr (c :: _)) => wellShapedContent c
           | none => true
           | some _ => false)
      | none => true
      | some _ => false
  | _ => false

/-- A lookup holding the second and third applicant-name synonyms. -/
def c2Lookup : List (String × JValue) :=
  [("name", .str "J. Doe"), ("borrower name", .str "Jane Doe")]

/-- A lookup with a currency-formatted income and an unparseable amount. -/
def c3Lookup : List (String × JValue) :=
  [("annual income", .str "$1,250,000.00"), ("loan amount", .str "TBD")]

/-- The record extracted from c3Lookup. -/
def c3Record : LoanApplicationData :=
  { annual_income := pyFloat "1250000.00" }

/-- A lookup holding a full dashed SSN. -/
def c4Lookup : List (String × JValue) := [("ssn", .str "123-45-6789")]

/-- The record extracted from c4Lookup. -/
def c4Record : LoanApplicationData := { ssn_last_4 := some "6789" }

/-- An analysis result whose section has empty markdown. -/
def c5EmptyMarkdownInput : JValue := mkAnalysisWithMarkdown ""

/-- An analysis result with a non-dict entry in its key/value list. -/
def c7BadInput : JValue :=
  .obj [("result", .obj [("contents",
    .arr [.obj [("keyValuePairs", .arr [.num 42])]])])]

/-- Backend responses: in-progress for 59 attempts, then the success sentinel. -/
def succPoll : Nat → PollResponse := fun i =>
  if i = 59 then ⟨200, .obj [("status", .str "Succeeded"), ("result", .str "payload")]⟩
  else ⟨200, .obj [("status", .str "Running")]⟩

/-- Backend responses: in-progress forever. -/
def runPoll : Nat → PollResponse := fun _ =>
  ⟨200, .obj [("status", .str "Running")]⟩

/-- A backend oracle for exercising the dispatcher. -/
def trivialOracle : BackendOracle :=
  ⟨fun _ => ⟨200, none⟩, fun _ _ => ⟨200, .obj []⟩⟩

/-- A backend whose submission response lacks the operation handle. -/
def noLocOracle : BackendOracle :=
  ⟨fun _ => ⟨200, none⟩, fun _ _ => ⟨200, .obj [("status", .str "Succeeded")]⟩⟩

/-- A backend whose submission response carries an operation handle. -/
def locOracle : BackendOracle :=
  ⟨fun _ => ⟨200, some "https://example.test/op/1"⟩,
   fun _ _ => ⟨200, .obj [("status", .str "Succeeded")]⟩⟩

/-- Bind on an ok value reduces to the continuation. -/
theorem exceptOk_bind {α β : Type} (a : α) (f : α → Except PyError β) :
    (Except.ok a >>= f) = f a := rfl

/-- Bind on an error short-circuits. -/
theorem exceptError_bind {α β : Type} (e : PyError) (f : α → Except PyError β) :
    ((Except.error e : Except PyError α) >>= f) = .error e := rfl

/-- Inversion of a successful extractFromLookup run: each field of the
resulting record is the corresponding step's output. -/
theorem extractFromLookup_ok {md : String} {lookup : List (String × JValue)}
    {flds : JValue} {r : LoanApplicationData}
    (h : extractFromLookup md lookup flds = .ok r) :
    r.applicant_name = firstMatch lookup applicantNameKeys ∧
    ssnStep lookup = .ok r.ssn_last_4 ∧
    incomeStep lookup = .ok r.annual_income ∧
    amountStep lookup = .ok r.loan_amount_requested ∧
    r.employment_status = firstMatch lookup employmentKeys ∧
    r.employer_name = firstMatch lookup employerKeys ∧
    r.loan_purpose = firstMatch lookup loanPurposeKeys ∧
    r.property_address = firstMatch lookup propertyAddressKeys ∧
    confidenceOf flds = .ok r.confidence_score ∧
    r.raw_markdown = rawMarkdownOf md := by
  unfold extractFromLookup at h
  cases h1 : ssnStep lookup with
  | error e => rw [h1, exceptError_bind] at h; exact absurd h (by simp)
  | ok ssn =>
  rw [h1, exceptOk_bind] at h
  cases h2 : incomeStep lookup with
  | error e => rw [h2, exceptError_bind] at h; exact absurd h (by simp)
  | ok income =>
  rw [h2, exceptOk_bind] at h
  cases h3 : amountStep lookup with
  | error e => rw [h3, exceptError_bind] at h; exact absurd h (by simp)
  | ok amount =>
  rw [h3, exceptOk_bind] at h
  cases h4 : confidenceOf flds with
  | error e => rw [h4, exceptError_bind] at h; exact absurd h (by simp)
  | ok conf =>
  rw [h4, exceptOk_bind] at h
  cases Except.ok.inj h
  exact ⟨rfl, rfl, rfl, rfl, rfl, rfl, rfl, rfl, rfl, rfl⟩

/-- C2: for each target field's declared synonym priority list, the per-field
lookup loop of extract_loan_fields takes the value of the first priority-order
key present in the evidence lookup; synonyms before it must be absent, and
synonyms after it are never consulted.  Presence is a property of the lookup
as a map, so the outcome is independent of the order the evidence pairs
appeared in. -/
theorem firstMatch_priority (lookup : List (String × JValue)) (keys : List String)
    (_htab : keys ∈ fieldSynonymTable) (i : Nat) (hi : i < keys.length)
    (hhit : (dictLookup lookup (keys.get ⟨i, hi⟩)).isSome = true)
    (hmiss : ∀ j (hj : j < i),
      (dictLookup lookup (keys.get ⟨j, Nat.lt_trans hj hi⟩)).isNone = true) :
    firstMatch lookup keys = dictLookup lookup (keys.get ⟨i, hi⟩) := by
  clear _htab
  induction keys generalizing i with
  | nil => exact absurd hi (Nat.not_lt_zero i)
  | cons k rest ih =>
    cases i with
    | zero =>
      cases hl : dictLookup lookup k with
      | none =>
          exact absurd (hl ▸ hhit : (Option.none : Option JValue).isSome = true)
            (by simp)
      | some v => simp only [firstMatch, hl]; exact hl.symm
    | succ j =>
      have h0 : (dictLookup lookup k).isNone = true := hmiss 0 (Nat.succ_pos j)
      have h0' : dictLookup lookup k = none := Option.isNone_iff_eq_none.mp h0
      show firstMatch lookup (k :: rest) = dictLookup lookup (rest.get ⟨j, _⟩)
      simp only [firstMatch, h0']
      exact ih j (Nat.lt_of_succ_lt_succ hi) hhit
        (fun j' hj' => hmiss (j' + 1) (Nat.succ_lt_succ hj'))

/-- Witness for C2 at a lookup holding two applicant-name synonyms. -/
theorem firstMatch_priority_witness :
    firstMatch c2Lookup applicantNameKeys =
      dictLookup c2Lookup (applicantNameKeys.get ⟨1, by decide⟩) :=
  firstMatch_priority c2Lookup applicantNameKeys (by decide) 1 (by decide)
    (by decide) (by decide)

/-- The stripped example literal parses to 1250000. -/
theorem pyFloat_example : pyFloat "1250000.00" = some (1250000 : ℚ) := by
  have h1 : pyFloat "1250000.00"
      = some ((1 : ℚ) * (((1250000 : ℕ) : ℚ) + ((0 : ℕ) : ℚ) / (10 : ℚ) ^ 2)
          * (10 : ℚ) ^ (0 : ℤ)) := rfl
  rw [h1]
  norm_num

/-- C3: for a matched income or loan-amount evidence value, the extracted
numeric field is exactly the result of removing all commas and dollar signs
and parsing as a Python float; the parse is total, so an unparseable residual
leaves the field none rather than raising; the string dollar 1,250,000.00
strips to 1250000.00 which parses to 1250000. -/
theorem money_fields_strip_parse (lookup : List (String × JValue)) (md : String)
    (flds : JValue) (v : String) (r : LoanApplicationData)
    (hr : extractFromLookup md lookup flds = .ok r) :
    (firstMatch lookup incomeKeys = some (.str v) →
       r.annual_income = pyFloat (pyRemoveChar (pyRemoveChar v ',') '$')) ∧
    (firstMatch lookup loanAmountKeys = some (.str v) →
       r.loan_amount_requested = pyFloat (pyRemoveChar (pyRemoveChar v ',') '$')) ∧
    pyRemoveChar (pyRemoveChar "$1,250,000.00" ',') '$' = "1250000.00" ∧
    pyFloat "1250000.00" = some (1250000 : ℚ) := by
  obtain ⟨-, -, hinc, hamt, -, -, -, -, -, -⟩ := extractFromLookup_ok hr
  refine ⟨?_, ?_, by decide, pyFloat_example⟩
  · intro hm
    unfold incomeStep at hinc
    rw [hm] at hinc
    exact (Except.ok.inj hinc).symm
  · intro hm
    unfold amountStep at hamt
    rw [hm] at hamt
    exact (Except.ok.inj hamt).symm

/-- Witness for C3: extraction on a lookup with a currency income value and
an unparseable loan-amount value. -/
theorem money_fields_strip_parse_witness :
    (firstMatch c3Lookup incomeKeys = some (.str "$1,250,000.00") →
       c3Record.annual_income =
         pyFloat (pyRemoveChar (pyRemoveChar "$1,250,000.00" ',') '$')) ∧
    (firstMatch c3Lookup loanAmountKeys = some (.str "$1,250,000.00") →
       c3Record.loan_amount_requested =
         pyFloat (pyRemoveChar (pyRemoveChar "$1,250,000.00" ',') '$')) ∧
    pyRemoveChar (pyRemoveChar "$1,250,000.00" ',') '$' = "1250000.00" ∧
    pyFloat "1250000.00" = some (1250000 : ℚ) :=
  money_fields_strip_parse c3Lookup "" (.obj []) "$1,250,000.00" c3Record rfl

/-- C4: for a matched SSN evidence value, the extracted ssn_last_4 keeps only
the decimal digits and takes the last four when at least four are present,
and is absent otherwise; the value 123-45-6789 yields 6789. -/
theorem ssn_last_four (lookup : List (String × JValue)) (md : String)
    (flds : JValue) (v : String) (r : LoanApplicationData)
    (hr : extractFromLookup md lookup flds = .ok r)
    (hm : firstMatch lookup ssnKeys = some (.str v)) :
    r.ssn_last_4 = (if 4 ≤ (pyDigits v).length
      then some (String.mk ((pyDigits v).drop ((pyDigits v).length - 4)))
      else none) ∧
    ssnFromValue (.str "123-45-6789") = .ok (some "6789") ∧
    (∀ w : String, (pyDigits w).length < 4 → ssnFromValue (.str w) = .ok none) := by
  obtain ⟨-, hssn, -, -, -, -, -, -, -, -⟩ := extractFromLookup_ok hr
  refine ⟨?_, rfl, ?_⟩
  · unfold ssnStep at hssn
    rw [hm] at hssn
    exact (Except.ok.inj hssn).symm
  · intro w hw
    show Except.ok (if 4 ≤ (pyDigits w).length
      then some (String.mk ((pyDigits w).drop ((pyDigits w).length - 4)))
      else none) = Except.ok none
    rw [if_neg (Nat.not_le_of_lt hw)]

/-- Witness for C4 at a lookup holding a dashed SSN. -/
theorem ssn_last_four_witness :
    c4Record.ssn_last_4 = (if 4 ≤ (pyDigits "123-45-6789").length
      then some (String.mk ((pyDigits "123-45-6789").drop
        ((pyDigits "123-45-6789").length - 4)))
      else none) ∧
    ssnFromValue (.str "123-45-6789") = .ok (some "6789") ∧
    (∀ w : String, (pyDigits w).length < 4 → ssnFromValue (.str w) = .ok none) :=
  ssn_last_four c4Lookup "" (.obj []) "123-45-6789" c4Record rfl rfl

/-- C5 counterexample: a section whose markdown text is the empty string (0
characters, hence 2000 characters or shorter) does not preserve the text in
the raw text field: the field is absent (none), not the empty string. -/
theorem raw_markdown_empty_counterexample :
    (extract_loan_fields c5EmptyMarkdownInput).map
      (fun r => r.raw_markdown) = .ok none ∧
    (Except.ok (none : Option String) : Except PyError (Option String))
      ≠ .ok (some "") :=
  ⟨rfl, fun h => Option.noConfusion (Except.ok.inj h)⟩

/-- C5 (amended): non-empty markdown of 2000 characters or fewer is preserved
exactly; markdown longer than 2000 characters is truncated to exactly its
first 2000 characters; empty markdown leaves the raw text field absent. -/
theorem raw_markdown_truncation (md : String) (lookup : List (String × JValue))
    (flds : JValue) (r : LoanApplicationData)
    (hr : extractFromLookup md lookup flds = .ok r) :
    (¬ md = "" → md.toList.length ≤ 2000 → r.raw_markdown = some md) ∧
    (2000 < md.toList.length →
      r.raw_markdown = some (pySlice md 2000) ∧
      (pySlice md 2000).toList = md.toList.take 2000 ∧
      (pySlice md 2000).toList.length = 2000) ∧
    (md = "" → r.raw_markdown = none) := by
  obtain ⟨-, -, -, -, -, -, -, -, -, hraw⟩ := extractFromLookup_ok hr
  rw [hraw]
  unfold rawMarkdownOf
  refine ⟨?_, ?_, ?_⟩
  · intro hne hlen
    rw [if_neg hne]
    show some (String.mk (md.toList.take 2000)) = some md
    rw [List.take_of_length_le hlen]
    rfl
  · intro hlen
    have hne : ¬ md = "" := by
      intro h
      rw [h] at hlen
      exact absurd hlen (by decide)
    refine ⟨by rw [if_neg hne], rfl, ?_⟩
    show (md.toList.take 2000).length = 2000
    rw [List.length_take]
    exact Nat.min_eq_left (Nat.le_of_lt hlen)
  · intro h
    rw [if_pos h]

/-- Witness for C5 at the five-character markdown hello. -/
theorem raw_markdown_truncation_witness :
    (¬ ("hello" : String) = "" → ("hello" : String).toList.length ≤ 2000 →
      (some "hello" : Option String) = some "hello") ∧
    (2000 < ("hello" : String).toList.length →
      (some "hello" : Option String) = some (pySlice "hello" 2000) ∧
      (pySlice "hello" 2000).toList = ("hello" : String).toList.take 2000 ∧
      (pySlice "hello" 2000).toList.length = 2000) ∧
    (("hello" : String) = "" → (some "hello" : Option String) = none) := by
  have h := raw_markdown_truncation "hello" [] (.obj [])
    { raw_markdown := some "hello" } rfl
  exact h

/-- kvEntry on a well-shaped evidence pair normalizes the key and keeps the
value text. -/
theorem kvEntry_mk (kc vc : String) :
    kvEntry (mkKvPair kc vc) = .ok (pyStrip (pyLower kc), .str vc) := rfl

/-- The kv-build loop on well-shaped pairs never raises and agrees with its
string-level specialization. -/
theorem buildKv_str (ps : List (String × String)) (acc : List (String × JValue)) :
    buildKvLookup (ps.map (fun p => mkKvPair p.1 p.2)) acc
      = .ok (buildStrLookup ps acc) := by
  induction ps generalizing acc with
  | nil => rfl
  | cons p rest ih =>
    obtain ⟨kc, vc⟩ := p
    show (kvEntry (mkKvPair kc vc) >>= fun e =>
      buildKvLookup (rest.map (fun p => mkKvPair p.1 p.2))
        (if ¬(e.1 = "") ∧ pyTruthy e.2 then dictSet acc e.1 e.2 else acc)) = _
    rw [kvEntry_mk, exceptOk_bind]
    have hcond : (¬(pyStrip (pyLower kc) = "") ∧
        pyTruthy (JValue.str vc) = true) ↔
        (¬(pyStrip (pyLower kc) = "") ∧ ¬(vc = "")) := by
      simp [pyTruthy]
    by_cases hc : ¬(pyStrip (pyLower kc) = "") ∧ ¬(vc = "")
    · rw [if_pos (hcond.mpr hc)]
      show buildKvLookup (rest.map (fun p => mkKvPair p.1 p.2))
        (dictSet acc (pyStrip (pyLower kc)) (.str vc)) = _
      rw [ih]
      show _ = Except.ok (buildStrLookup rest
        (if ¬(pyStrip (pyLower kc) = "") ∧ ¬(vc = "")
          then dictSet acc (pyStrip (pyLower kc)) (.str vc) else acc))
      rw [if_pos hc]
    · rw [if_neg (fun hh => hc (hcond.mp hh))]
      rw [ih]
      show _ = Except.ok (buildStrLookup rest
        (if ¬(pyStrip (pyLower kc) = "") ∧ ¬(vc = "")
          then dictSet acc (pyStrip (pyLower kc)) (.str vc) else acc))
      rw [if_neg hc]

/-- Lookup after dict assignment: the assigned key reads back the new value,
other keys are unaffected. -/
theorem dictLookup_dictSet (l : List (String × JValue)) (k k' : String) (v : JValue) :
    dictLookup (dictSet l k v) k' = if k' = k then some v else dictLookup l k' := by
  induction l with
  | nil =>
    by_cases h : k' = k
    · simp [dictSet, dictLookup, h]
    · simp [dictSet, dictLookup, h, Ne.symm h]
  | cons p rest ih =>
    obtain ⟨k0, v0⟩ := p
    by_cases h0 : k0 = k
    · subst h0
      by_cases h : k' = k0
      · subst h; simp [dictSet, dictLookup]
      · simp [dictSet, dictLookup, h, Ne.symm h]
    · by_cases h : k' = k0
      · subst h
        simp [dictSet, h0, dictLookup]
      · have hset : dictSet ((k0, v0) :: rest) k v = (k0, v0) :: dictSet rest k v := by
          simp [dictSet, h0]
        have hfind : ∀ l : List (String × JValue),
            dictLookup ((k0, v0) :: l) k' = dictLookup l k' := by
          intro l
          simp [dictLookup, Ne.symm h]
        rw [hset, hfind, hfind, ih]

/-- Lookup in the built evidence dict is the last retained pair with that
normalized key, else whatever the accumulator held. -/
theorem buildStr_lookup (ps : List (String × String)) (acc : List (String × JValue))
    (k : String) :
    dictLookup (buildStrLookup ps acc) k
      = (((retainedPairs ps).reverse.find? (fun q => q.1 = k)).map
          (fun q => JValue.str q.2)).or (dictLookup acc k) := by
  induction ps generalizing acc with
  | nil => simp [buildStrLookup, retainedPairs]
  | cons p rest ih =>
    obtain ⟨kc, vc⟩ := p
    by_cases hc : ¬(pyStrip (pyLower kc) = "") ∧ ¬(vc = "")
    · have hbuild : buildStrLookup ((kc, vc) :: rest) acc
          = buildStrLookup rest (dictSet acc (pyStrip (pyLower kc)) (.str vc)) := by
        show buildStrLookup rest
          (if ¬(pyStrip (pyLower kc) = "") ∧ ¬(vc = "")
            then dictSet acc (pyStrip (pyLower kc)) (.str vc) else acc) = _
        rw [if_pos hc]
      have hret : retainedPairs ((kc, vc) :: rest)
          = (pyStrip (pyLower kc), vc) :: retainedPairs rest := by
        simp [retainedPairs, hc.1, hc.2]
      rw [hbuild, ih, hret, dictLookup_dictSet]
      rw [List.reverse_cons, List.find?_append]
      cases hfind : (retainedPairs rest).reverse.find? (fun q => q.1 = k) with
      | some q => simp
      | none =>
        simp only [Option.none_or, Option.map_none]
        by_cases hk : k = pyStrip (pyLower kc)
        · simp [hk, List.find?, Option.or]
        · have : ¬(pyStrip (pyLower kc) = k) := fun hh => hk hh.symm
          simp [List.find?, this, hk, Option.or]
    · have hbuild : buildStrLookup ((kc, vc) :: rest) acc = buildStrLookup rest acc := by
        show buildStrLookup rest
          (if ¬(pyStrip (pyLower kc) = "") ∧ ¬(vc = "")
            then dictSet acc (pyStrip (pyLower kc)) (.str vc) else acc) = _
        rw [if_neg hc]
      have hret : retainedPairs ((kc, vc) :: rest) = retainedPairs rest := by
        simp only [retainedPairs, List.filterMap_cons]
        rw [if_neg hc]
      rw [hbuild, ih, hret]

/-- The build loop processes an appended list in two stages. -/
theorem buildStr_append (ps qs : List (String × String)) (acc : List (String × JValue)) :
    buildStrLookup (ps ++ qs) acc = buildStrLookup qs (buildStrLookup ps acc) := by
  induction ps generalizing acc with
  | nil => rfl
  | cons p rest ih =>
    obtain ⟨kc, vc⟩ := p
    show buildStrLookup (rest ++ qs) _ = _
    rw [ih]
    rfl

/-- C6 counterexample: of the two evidence pairs (key A, value 1) and
(key a-space, value empty), both normalizing to the key a, the built lookup
retains the value 1 of the FIRST pair, because the second pair's empty value
is filtered out; the claimed last-seen-wins over all pairs would give the
empty value. -/
theorem kv_lookup_counterexample :
    (buildKvLookup [mkKvPair "A" "1", mkKvPair "a " ""] []).map
      (fun l => dictLookup l "a") = .ok (some (JValue.str "1")) ∧
    ¬ (some (JValue.str "1") = some (JValue.str "")) := by
  refine ⟨rfl, fun h => ?_⟩
  injection h with h1
  injection h1 with h2
  exact absurd h2 (by decide)

/-- C6 (amended): the evidence lookup maps each normalized key to the value
of the LAST pair with that normalized key among the pairs whose normalized
key and value text are both non-empty; pairs failing that filter do not
contribute. -/
theorem kv_lookup_retained_last_wins (ps : List (String × String)) (k : String) :
    (buildKvLookup (ps.map (fun p => mkKvPair p.1 p.2)) []).map
      (fun l => dictLookup l k)
      = .ok (((retainedPairs ps).reverse.find? (fun q => q.1 = k)).map
          (fun q => JValue.str q.2)) := by
  rw [buildKv_str]
  show Except.ok (dictLookup (buildStrLookup ps []) k) = _
  rw [buildStr_lookup]
  show Except.ok (Option.or _ none) = _
  rw [Option.or_none]

/-- C10: an evidence pair whose normalized key is empty or whose value text
is empty is excluded from the lookup entirely, wherever it occurs; in
particular a duplicate-keyed empty-valued pair after a non-empty one leaves
the earlier value in place, as the closed second conjunct shows. -/
theorem invalid_pairs_excluded (ps qs : List (String × String)) (kc vc : String)
    (h : pyStrip (pyLower kc) = "" ∨ vc = "") :
    buildKvLookup ((ps ++ (kc, vc) :: qs).map (fun p => mkKvPair p.1 p.2)) []
      = buildKvLookup ((ps ++ qs).map (fun p => mkKvPair p.1 p.2)) [] ∧
    (buildKvLookup [mkKvPair "name" "Jane", mkKvPair "Name" ""] []).map
      (fun l => dictLookup l "name") = .ok (some (JValue.str "Jane")) := by
  refine ⟨?_, rfl⟩
  rw [buildKv_str, buildKv_str, buildStr_append, buildStr_append]
  have hstep : ∀ acc : List (String × JValue),
      buildStrLookup ((kc, vc) :: qs) acc = buildStrLookup qs acc := by
    intro acc
    show buildStrLookup qs
      (if ¬(pyStrip (pyLower kc) = "") ∧ ¬(vc = "")
        then dictSet acc (pyStrip (pyLower kc)) (.str vc) else acc) = _
    rw [if_neg (fun hc => h.elim (fun h1 => hc.1 h1) (fun h2 => hc.2 h2))]
  rw [hstep]

/-- Witness for C10: appending an empty-valued SSN pair changes nothing. -/
theorem invalid_pairs_excluded_witness :
    buildKvLookup ((([("applicant name", "Jane")] ++ ("ssn", "") :: [])
        : List (String × String)).map (fun p => mkKvPair p.1 p.2)) []
      = buildKvLookup ((([("applicant name", "Jane")] ++ [])
        : List (String × String)).map (fun p => mkKvPair p.1 p.2)) [] ∧
    (buildKvLookup [mkKvPair "name" "Jane", mkKvPair "Name" ""] []).map
      (fun l => dictLookup l "name") = .ok (some (JValue.str "Jane")) :=
  invalid_pairs_excluded [("applicant name", "Jane")] [] "ssn" "" (Or.inr rfl)

/-- One polling step on an in-progress response advances the attempt index,
the clock, and the attempt count. -/
theorem pollAux_step_inProgress (poll : Nat → PollResponse) (fuel i clock att : Nat)
    (h : isInProgressResponse (poll i) = true) :
    pollAux poll (fuel + 1) i clock att
      = pollAux poll fuel (i + 1) (clock + pollDelaySeconds) (att + 1) := by
  unfold isInProgressResponse at h
  by_cases hsc : 400 ≤ (poll i).statusCode
  · rw [if_pos hsc] at h
    exact absurd h (by simp)
  · rw [if_neg hsc] at h
    show (if 400 ≤ (poll i).statusCode then _ else _) = _
    rw [if_neg hsc]
    cases hdg : dictGet (poll i).body "status" (.str "") with
    | error e =>
        rw [hdg] at h
        exact absurd h (by simp)
    | ok sv =>
        rw [hdg] at h
        cases sv with
        | str t =>
            have h1 : ¬(t = "Succeeded") := by
              intro hh
              rw [hh] at h
              simp at h
            have h2 : ¬(t = "Failed" ∨ t = "Canceled") := by
              intro hh
              cases hh with
              | inl hh => rw [hh] at h; simp at h
              | inr hh => rw [hh] at h; simp at h
            show (if t = "Succeeded" then _ else
              if t = "Failed" ∨ t = "Canceled" then _ else _) = _
            rw [if_neg h1, if_neg h2]
        | null => rfl
        | num q => rfl
        | bool b => rfl
        | arr xs => rfl
        | obj kvs => rfl

/-- A run of k in-progress responses advances the polling loop by k attempts
and k delays. -/
theorem pollAux_skip (poll : Nat → PollResponse) (k : Nat) :
    ∀ r i clock att, (∀ j, j < k → isInProgressResponse (poll (i + j)) = true) →
    pollAux poll (k + r) i clock att
      = pollAux poll r (i + k) (clock + pollDelaySeconds * k) (att + k) := by
  induction k with
  | zero => intro r i clock att _; simp
  | succ k ih =>
    intro r i clock att h
    have h0 : isInProgressResponse (poll i) = true := by
      have := h 0 (Nat.succ_pos k)
      simpa using this
    have e1 : k + 1 + r = (k + r) + 1 := by omega
    rw [e1, pollAux_step_inProgress poll (k + r) i clock att h0]
    have hrec := ih r (i + 1) (clock + pollDelaySeconds) (att + 1)
      (fun j hj => by
        have := h (j + 1) (Nat.succ_lt_succ hj)
        have e : i + (j + 1) = i + 1 + j := by omega
        rwa [e] at this)
    rw [hrec]
    have e2 : i + 1 + k = i + (k + 1) := by omega
    have e3 : clock + pollDelaySeconds + pollDelaySeconds * k
        = clock + pollDelaySeconds * (k + 1) := by ring
    have e4 : att + 1 + k = att + (k + 1) := by omega
    rw [e2, e3, e4]

/-- C1: the polling loop makes at most 60 attempts with a delay of 2 before
each; if the backend reports in-progress (or unrecognized) statuses on the
first 59 attempts and the success sentinel on the 60th, the loop returns that
attempt's payload after 120 time units and 60 polls; if all 60 attempts are
in-progress, it raises the timeout error after the same 120 time units. -/
theorem poll_success_at_60_timeout_at_61 (poll : Nat → PollResponse) :
    maxPollAttempts = 60 ∧ pollDelaySeconds = 2 ∧
    ((∀ j, j < 59 → isInProgressResponse (poll j) = true) →
      (isSucceededResponse (poll 59) = true →
        pollForResult poll = ⟨.ok (poll 59).body, 120, 60⟩) ∧
      (isInProgressResponse (poll 59) = true →
        pollForResult poll
          = ⟨.error (.timeoutError "Document analysis timed out"), 120, 60⟩)) := by
  refine ⟨rfl, rfl, fun h59 => ⟨fun hs => ?_, fun hp => ?_⟩⟩
  · have hskip := pollAux_skip poll 59 1 0 0 0
      (fun j hj => by simpa using h59 j hj)
    show pollAux poll maxPollAttempts 0 0 0 = _
    have h60 : maxPollAttempts = 59 + 1 := rfl
    rw [h60, hskip]
    unfold isSucceededResponse at hs
    by_cases hsc : 400 ≤ (poll (0 + 59)).statusCode
    · rw [if_pos (by simpa using hsc)] at hs
      exact absurd hs (by simp)
    · rw [if_neg (by simpa using hsc)] at hs
      cases hdg : dictGet (poll 59).body "status" (.str "") with
      | error e =>
          rw [hdg] at hs
          exact absurd hs (by simp)
      | ok sv =>
          rw [hdg] at hs
          cases sv with
          | str t =>
              have ht : t = "Succeeded" := by simpa using hs
              subst ht
              show (if 400 ≤ (poll (0 + 59)).statusCode then _ else _) = _
              rw [if_neg hsc]
              have hdg' : dictGet (poll (0 + 59)).body "status" (.str "")
                  = .ok (.str "Succeeded") := by simpa using hdg
              rw [hdg']
              show (if ("Succeeded" : String) = "Succeeded" then _ else _) = _
              rw [if_pos rfl]
              simp [pollDelaySeconds]
          | null => exact absurd hs (by simp)
          | num q => exact absurd hs (by simp)
          | bool b => exact absurd hs (by simp)
          | arr xs => exact absurd hs (by simp)
          | obj kvs => exact absurd hs (by simp)
  · have hall : ∀ j, j < 60 → isInProgressResponse (poll j) = true := by
      intro j hj
      by_cases hj59 : j = 59
      · rw [hj59]; exact hp
      · exact h59 j (by omega)
    have hskip := pollAux_skip poll 60 0 0 0 0
      (fun j hj => by simpa using hall j hj)
    show pollAux poll maxPollAttempts 0 0 0 = _
    have h60 : maxPollAttempts = 60 + 0 := rfl
    rw [h60, hskip]
    simp [pollAux, pollDelaySeconds]

/-- Witness for C1 on concrete response sequences. -/
theorem poll_success_at_60_timeout_at_61_witness :
    pollForResult succPoll = ⟨.ok (succPoll 59).body, 120, 60⟩ ∧
    pollForResult runPoll
      = ⟨.error (.timeoutError "Document analysis timed out"), 120, 60⟩ :=
  ⟨((poll_success_at_60_timeout_at_61 succPoll).2.2
      (by decide)).1 (by decide),
   ((poll_success_at_60_timeout_at_61 runPoll).2.2
      (by decide)).2 (by decide)⟩

/-- C8: dispatching a tool name that is neither extract_loan_data nor
get_document_text returns the unknown-tool error text and performs no backend
interaction at all (no submission, no poll). -/
theorem unknown_tool_no_backend (oracle : BackendOracle) (name : String)
    (args : List (String × JValue))
    (h1 : ¬ name = "extract_loan_data") (h2 : ¬ name = "get_document_text") :
    call_tool oracle name args
      = ⟨[.plainText ("Unknown tool: " ++ name)], []⟩ := by
  unfold call_tool
  rw [if_neg h1, if_neg h2]

/-- Witness for C8 at the unregistered tool name foo. -/
theorem unknown_tool_no_backend_witness :
    call_tool trivialOracle "foo" []
      = ⟨[.plainText ("Unknown tool: " ++ "foo")], []⟩ :=
  unknown_tool_no_backend trivialOracle "foo" [] (by decide) (by decide)

/-- The attempt counter never decreases. -/
theorem pollAux_attempts_mono (poll : Nat → PollResponse) :
    ∀ fuel i clock att, att ≤ (pollAux poll fuel i clock att).attempts := by
  intro fuel
  induction fuel with
  | zero => intro i clock att; exact Nat.le_refl att
  | succ f ih =>
    intro i clock att
    unfold pollAux
    dsimp only
    repeat' split
    all_goals first
      | exact Nat.le_succ att
      | exact Nat.le_trans (Nat.le_succ att) (ih _ _ _)

/-- With fuel left, the loop always issues at least one poll. -/
theorem pollAux_attempts_pos (poll : Nat → PollResponse) (f i clock att : Nat) :
    att + 1 ≤ (pollAux poll (f + 1) i clock att).attempts := by
  unfold pollAux
  dsimp only
  repeat' split
  all_goals first
    | exact Nat.le_refl (att + 1)
    | exact pollAux_attempts_mono poll f _ _ _

/-- C9: when the accepted submission response has no truthy
Operation-Location header, the job fails at once with the protocol ValueError
and no poll is ever issued; when the handle is present, the run proceeds from
the submission directly to polling that handle. -/
theorem operation_location_gate (oracle : BackendOracle) (url : JValue)
    (hok : ¬ 400 ≤ (oracle.submit url).statusCode) :
    (((oracle.submit url).operationLocation = none ∨
        (oracle.submit url).operationLocation = some "") →
      analyze_document oracle url
        = (.error (.valueError "No Operation-Location header in response"),
           [.submitted url])) ∧
    (∀ loc, (oracle.submit url).operationLocation = some loc → ¬ loc = "" →
      (analyze_document oracle url).2.take 2
        = [.submitted url, .polled loc 0]) := by
  constructor
  · intro hmiss
    unfold analyze_document
    rw [if_neg hok]
    cases hmiss with
    | inl h => rw [h]
    | inr h =>
        rw [h]
        dsimp only
        rw [if_pos rfl]
  · intro loc hloc hne
    unfold analyze_document
    rw [if_neg hok, hloc]
    dsimp only
    rw [if_neg hne]
    dsimp only
    have hpos : 1 ≤ (pollForResult (oracle.poll loc)).attempts := by
      have := pollAux_attempts_pos (oracle.poll loc) 59 0 0 0
      exact this
    cases hatt : (pollForResult (oracle.poll loc)).attempts with
    | zero => rw [hatt] at hpos; exact absurd hpos (by decide)
    | succ m =>
      rw [List.range_succ_eq_map]
      rfl

/-- Lookup in the empty dict misses. -/
theorem dictLookup_nil (k : String) : dictLookup [] k = none := rfl

/-- A well-shaped key or value sub-dict always yields a string content
(defaulting to the empty string), for any continuation. -/
theorem contentField_str (okvs : List (String × JValue)) (field : String)
    (h : (match dictLookup okvs field with
       | some (.obj m) =>
           match dictLookup m "content" with
           | some (.str _) => true
           | none => true
           | some _ => false
       | none => true
       | some _ => false) = true) :
    ∃ s : String, ∀ {β : Type} (rest : JValue → Except PyError β),
      (dictGet (JValue.obj okvs) field (.obj []) >>= fun o =>
        dictGet o "content" (.str "") >>= rest) = rest (JValue.str s) := by
  cases hf : dictLookup okvs field with
  | none =>
    exact ⟨"", fun rest => by
      simp [dictGet, exceptOk_bind, hf, dictLookup_nil]⟩
  | some o =>
    rw [hf] at h
    cases o with
    | obj m =>
      have h' : (match dictLookup m "content" with
          | some (JValue.str _) => true
          | none => true
          | some _ => false) = true := h
      cases hc : dictLookup m "content" with
      | none =>
        exact ⟨"", fun rest => by simp [dictGet, exceptOk_bind, hf, hc]⟩
      | some c =>
        rw [hc] at h'
        cases c with
        | str s => exact ⟨s, fun rest => by simp [dictGet, exceptOk_bind, hf, hc]⟩
        | null => simp at h'
        | num q => simp at h'
        | bool b => simp at h'
        | arr xs => simp at h'
        | obj o2 => simp at h'
    | null => simp at h
    | num q => simp at h
    | bool b => simp at h
    | str s2 => simp at h
    | arr xs => simp at h

/-- kvEntry never raises on a well-shaped evidence entry and produces a
string value. -/
theorem kvEntry_wellShaped (kv : JValue) (h : wellShapedKvEntry kv = true) :
    ∃ ks vs, kvEntry kv = .ok (ks, JValue.str vs) := by
  cases kv with
  | obj kvs =>
    simp only [wellShapedKvEntry, Bool.and_eq_true] at h
    obtain ⟨h1, h2⟩ := h
    obtain ⟨kc, hkc⟩ := contentField_str kvs "key" h1
    obtain ⟨vs, hvs⟩ := contentField_str kvs "value" h2
    refine ⟨pyStrip (pyLower kc), vs, ?_⟩
    unfold kvEntry
    rw [hkc]
    show (Except.ok (pyStrip (pyLower kc)) >>= fun key => _) = _
    rw [exceptOk_bind]
    rw [hvs]
  | null => simp [wellShapedKvEntry] at h
  | num q => simp [wellShapedKvEntry] at h
  | bool b => simp [wellShapedKvEntry] at h
  | str s => simp [wellShapedKvEntry] at h
  | arr xs => simp [wellShapedKvEntry] at h

/-- Members of a dict after assignment come from the new entry or the old
dict. -/
theorem mem_dictSet (l : List (String × JValue)) (k : String) (v : JValue)
    (p : String × JValue) (hp : p ∈ dictSet l k v) : p = (k, v) ∨ p ∈ l := by
  induction l with
  | nil =>
    simp [dictSet] at hp
    exact Or.inl hp
  | cons q rest ih =>
    obtain ⟨k0, v0⟩ := q
    by_cases h0 : k0 = k
    · rw [show dictSet ((k0, v0) :: rest) k v = (k, v) :: rest by
        simp [dictSet, h0]] at hp
      cases hp with
      | head => exact Or.inl rfl
      | tail _ hm => exact Or.inr (List.mem_cons_of_mem _ hm)
    · rw [show dictSet ((k0, v0) :: rest) k v = (k0, v0) :: dictSet rest k v by
        simp [dictSet, h0]] at hp
      cases hp with
      | head => exact Or.inr (List.mem_cons_self _ _)
      | tail _ hm =>
        cases ih hm with
        | inl h => exact Or.inl h
        | inr h => exact Or.inr (List.mem_cons_of_mem _ h)

/-- The kv-build loop never raises on well-shaped entries and keeps all
values strings. -/
theorem buildKv_wellShaped (l : List JValue) :
    ∀ acc, (∀ kv ∈ l, wellShapedKvEntry kv = true) →
    (∀ p ∈ acc, ∃ s, p.2 = JValue.str s) →
    ∃ lookup, buildKvLookup l acc = .ok lookup ∧
      ∀ p ∈ lookup, ∃ s, p.2 = JValue.str s := by
  induction l with
  | nil => intro acc _ hacc; exact ⟨acc, rfl, hacc⟩
  | cons kv rest ih =>
    intro acc hl hacc
    obtain ⟨ks, vs, he⟩ := kvEntry_wellShaped kv (hl kv (List.mem_cons_self _ _))
    have hrest : ∀ kv' ∈ rest, wellShapedKvEntry kv' = true :=
      fun kv' hm => hl kv' (List.mem_cons_of_mem _ hm)
    have hstep : buildKvLookup (kv :: rest) acc
        = buildKvLookup rest
            (if ¬(ks = "") ∧ pyTruthy (JValue.str vs)
              then dictSet acc ks (.str vs) else acc) := by
      show (kvEntry kv >>= fun e => buildKvLookup rest
        (if ¬(e.1 = "") ∧ pyTruthy e.2 then dictSet acc e.1 e.2 else acc)) = _
      rw [he, exceptOk_bind]
    by_cases hcond : ¬(ks = "") ∧ pyTruthy (JValue.str vs)
    · have hacc' : ∀ p ∈ dictSet acc ks (.str vs), ∃ s, p.2 = JValue.str s := by
        intro p hp
        cases mem_dictSet acc ks (.str vs) p hp with
        | inl hpe => exact ⟨vs, by rw [hpe]⟩
        | inr hpm => exact hacc p hpm
      obtain ⟨lookup, hb, hinv⟩ := ih (dictSet acc ks (.str vs)) hrest hacc'
      refine ⟨lookup, ?_, hinv⟩
      rw [hstep, if_pos hcond]
      exact hb
    · obtain ⟨lookup, hb, hinv⟩ := ih acc hrest hacc
      refine ⟨lookup, ?_, hinv⟩
      rw [hstep, if_neg hcond]
      exact hb

/-- A successful lookup is the value of some member. -/
theorem dictLookup_mem (l : List (String × JValue)) (k : String) (v : JValue)
    (h : dictLookup l k = some v) : ∃ p ∈ l, p.2 = v := by
  unfold dictLookup at h
  cases hf : l.find? (fun p => decide (p.1 = k)) with
  | none => rw [hf] at h; simp at h
  | some p =>
    rw [hf] at h
    exact ⟨p, List.mem_of_find?_eq_some hf, by simpa using h⟩

/-- A first-match hit in a string-valued lookup is a string. -/
theorem firstMatch_str (lookup : List (String × JValue))
    (hl : ∀ p ∈ lookup, ∃ s, p.2 = JValue.str s) :
    ∀ keys v, firstMatch lookup keys = some v → ∃ s, v = JValue.str s := by
  intro keys
  induction keys with
  | nil => intro v hv; simp [firstMatch] at hv
  | cons k rest ih =>
    intro v hv
    unfold firstMatch at hv
    cases hd : dictLookup lookup k with
    | none => rw [hd] at hv; exact ih v hv
    | some w =>
      rw [hd] at hv
      obtain ⟨p, hp, hpv⟩ := dictLookup_mem lookup k w hd
      obtain ⟨s, hs⟩ := hl p hp
      exact ⟨s, by rw [← Option.some.inj hv, ← hpv, hs]⟩

/-- Confidence collection never raises on well-shaped field values. -/
theorem confValues_wellShaped (l : List JValue)
    (h : ∀ v ∈ l, wellShapedConfidence v = true) :
    ∃ qs, confValues l = .ok qs := by
  induction l with
  | nil => exact ⟨[], rfl⟩
  | cons v rest ih =>
    obtain ⟨qs, hqs⟩ := ih (fun w hw => h w (List.mem_cons_of_mem _ hw))
    have hv := h v (List.mem_cons_self _ _)
    cases v with
    | obj kvs =>
      have hv' : (match dictLookup kvs "confidence" with
          | some (JValue.num _) => true
          | some (JValue.bool _) => true
          | some _ => false
          | none => true) = true := hv
      cases hc : dictLookup kvs "confidence" with
      | none =>
        refine ⟨qs, ?_⟩
        simp only [confValues]
        rw [hc]
        exact hqs
      | some c =>
        rw [hc] at hv'
        cases c with
        | num q =>
          refine ⟨q :: qs, ?_⟩
          simp only [confValues]
          rw [hc]
          dsimp only
          rw [hqs]
        | bool b =>
          refine ⟨(if b then (1 : ℚ) else 0) :: qs, ?_⟩
          simp only [confValues]
          rw [hc]
          dsimp only
          rw [hqs]
        | null => simp at hv'
        | str s => simp at hv'
        | arr xs => simp at hv'
        | obj o => simp at hv'
    | null => exact ⟨qs, hqs⟩
    | num q => exact ⟨qs, hqs⟩
    | bool b => exact ⟨qs, hqs⟩
    | str s => exact ⟨qs, hqs⟩
    | arr xs => exact ⟨qs, hqs⟩

/-- Field population never raises over a string-valued lookup and a fields
map whose confidence computation succeeds. -/
theorem extractFromLookup_total (md : String) (lookup : List (String × JValue))
    (hl : ∀ p ∈ lookup, ∃ s, p.2 = JValue.str s) (flds : JValue)
    (hf : ∃ cq, confidenceOf flds = .ok cq) :
    ∃ r, extractFromLookup md lookup flds = .ok r := by
  have hssn : ∃ o, ssnStep lookup = .ok o := by
    unfold ssnStep
    cases hm : firstMatch lookup ssnKeys with
    | none => exact ⟨none, rfl⟩
    | some v =>
      obtain ⟨s, hs⟩ := firstMatch_str lookup hl ssnKeys v hm
      subst hs
      exact ⟨_, rfl⟩
  have hinc : ∃ o, incomeStep lookup = .ok o := by
    unfold incomeStep
    cases hm : firstMatch lookup incomeKeys with
    | none => exact ⟨none, rfl⟩
    | some v =>
      obtain ⟨s, hs⟩ := firstMatch_str lookup hl incomeKeys v hm
      subst hs
      exact ⟨_, rfl⟩
  have hamt : ∃ o, amountStep lookup = .ok o := by
    unfold amountStep
    cases hm : firstMatch lookup loanAmountKeys with
    | none => exact ⟨none, rfl⟩
    | some v =>
      obtain ⟨s, hs⟩ := firstMatch_str lookup hl loanAmountKeys v hm
      subst hs
      exact ⟨_, rfl⟩
  obtain ⟨ssn, h1⟩ := hssn
  obtain ⟨inc, h2⟩ := hinc
  obtain ⟨amt, h3⟩ := hamt
  obtain ⟨cq, h4⟩ := hf
  refine ⟨{ applicant_name := firstMatch lookup applicantNameKeys
            ssn_last_4 := ssn
            annual_income := inc
            employment_status := firstMatch lookup employmentKeys
            employer_name := firstMatch lookup employerKeys
            loan_amount_requested := amt
            loan_purpose := firstMatch lookup loanPurposeKeys
            property_address := firstMatch lookup propertyAddressKeys
            confidence_score := cq
            raw_markdown := rawMarkdownOf md }, ?_⟩
  unfold extractFromLookup
  rw [h1, exceptOk_bind, h2, exceptOk_bind, h3, exceptOk_bind, h4, exceptOk_bind]

/-- C7 (amended): extract_loan_fields returns a record without raising on
every analysis result whose present sub-structures have the expected shapes
(dict result, list contents whose first element is a dict section, string
markdown, dict fields with numeric or boolean confidences, kv entries that
are dicts of dicts with string contents); missing keys and empty lists are
fine, and the empty input yields the all-absent record. -/
theorem extract_total_on_wellShaped (a : JValue)
    (h : wellShapedAnalysis a = true) :
    (∃ r, extract_loan_fields a = .ok r) ∧
    extract_loan_fields (JValue.obj []) = .ok {} := by
  refine ⟨?_, rfl⟩
  cases a with
  | obj kvs =>
    have h' : (match dictLookup kvs "result" with
        | some (.obj rkvs) =>
            (match dictLookup rkvs "contents" with
             | some (.arr []) => true
             | some (.arr (c :: _)) => wellShapedContent c
             | none => true
             | some _ => false)
        | none => true
        | some _ => false) = true := h
    cases hres : dictLookup kvs "result" with
    | none =>
      exact ⟨{}, by simp [extract_loan_fields, dictGet, exceptOk_bind, hres,
        dictLookup_nil, pyTruthy]⟩
    | some resv =>
      rw [hres] at h'
      cases resv with
      | obj rkvs =>
        have h2 : (match dictLookup rkvs "contents" with
            | some (JValue.arr []) => true
            | some (JValue.arr (c :: _)) => wellShapedContent c
            | none => true
            | some _ => false) = true := h'
        cases hcont : dictLookup rkvs "contents" with
        | none =>
          exact ⟨{}, by simp [extract_loan_fields, dictGet, exceptOk_bind, hres,
            hcont, dictLookup_nil, pyTruthy]⟩
        | some contv =>
          rw [hcont] at h2
          cases contv with
          | arr cl =>
            cases cl with
            | nil =>
              exact ⟨{}, by simp [extract_loan_fields, dictGet, exceptOk_bind,
                hres, hcont, dictLookup_nil, pyTruthy]⟩
            | cons c cs =>
              have h3 : wellShapedContent c = true := h2
              cases c with
              | obj ckvs =>
                simp only [wellShapedContent, Bool.and_eq_true] at h3
                obtain ⟨⟨hmdw, hfldw⟩, hkvw⟩ := h3
                have hmd : ∃ ms : String,
                    (dictLookup ckvs "markdown").getD (.str "")
                      = JValue.str ms := by
                  cases hmc : dictLookup ckvs "markdown" with
                  | none => exact ⟨"", rfl⟩
                  | some mdv =>
                    rw [hmc] at hmdw
                    cases mdv with
                    | str s => exact ⟨s, rfl⟩
                    | null => simp at hmdw
                    | num q => simp at hmdw
                    | bool b => simp at hmdw
                    | arr xs => simp at hmdw
                    | obj o => simp at hmdw
                have hfld : ∃ cq, confidenceOf
                    ((dictLookup ckvs "fields").getD (.obj [])) = .ok cq := by
                  cases hfc : dictLookup ckvs "fields" with
                  | none => exact ⟨none, rfl⟩
                  | some fv =>
                    rw [hfc] at hfldw
                    cases fv with
                    | obj fkvs =>
                      obtain ⟨qs, hqs⟩ := confValues_wellShaped
                        (fkvs.map (fun p => p.2))
                        (by
                          intro v hv
                          have := List.all_eq_true.mp hfldw
                          simpa using this v (by simpa using hv))
                      refine ⟨if qs.isEmpty then none
                        else some (qs.sum / (qs.length : ℚ)), ?_⟩
                      show (confValues (fkvs.map (fun p => p.2)) >>= fun confs =>
                        Except.ok (if confs.isEmpty then none
                          else some (confs.sum / (confs.length : ℚ)))) = _
                      rw [hqs, exceptOk_bind]
                    | null => simp at hfldw
                    | num q => simp at hfldw
                    | bool b => simp at hfldw
                    | str s => simp at hfldw
                    | arr xs => simp at hfldw
                have hkvp : ∃ kvl, pyIterList
                    ((dictLookup ckvs "keyValuePairs").getD (.arr []))
                      = .ok kvl ∧ ∀ kv ∈ kvl, wellShapedKvEntry kv = true := by
                  cases hkc : dictLookup ckvs "keyValuePairs" with
                  | none => exact ⟨[], rfl, by intro kv hkv; simp at hkv⟩
                  | some kvv =>
                    rw [hkc] at hkvw
                    cases kvv with
                    | arr kvl =>
                      refine ⟨kvl, rfl, ?_⟩
                      intro kv hkv
                      exact List.all_eq_true.mp hkvw kv (by simpa using hkv)
                    | null => simp at hkvw
                    | num q => simp at hkvw
                    | bool b => simp at hkvw
                    | str s => simp at hkvw
                    | obj o => simp at hkvw
                obtain ⟨ms, hms⟩ := hmd
                obtain ⟨cq, hcq⟩ := hfld
                obtain ⟨kvl, hkvl, hkvlw⟩ := hkvp
                obtain ⟨lookup, hbuild, hinv⟩ := buildKv_wellShaped kvl []
                  hkvlw (by intro p hp; simp at hp)
                obtain ⟨r, hr⟩ := extractFromLookup_total ms lookup hinv
                  ((dictLookup ckvs "fields").getD (.obj [])) ⟨cq, hcq⟩
                refine ⟨r, ?_⟩
                simp [extract_loan_fields, dictGet, exceptOk_bind, hres, hcont,
                  pyTruthy, pyIndex0, pyAsStr, hms, hkvl, hbuild, hr]
              | null => simp [wellShapedContent] at h3
              | num q => simp [wellShapedContent] at h3
              | bool b => simp [wellShapedContent] at h3
              | str s => simp [wellShapedContent] at h3
              | arr xs => simp [wellShapedContent] at h3
          | null => simp at h2
          | num q => simp at h2
          | bool b => simp at h2
          | str s => simp at h2
          | obj o => simp at h2
      | null => simp at h'
      | num q => simp at h'
      | bool b => simp at h'
      | str s => simp at h'
      | arr xs => simp at h'
  | null => simp [wellShapedAnalysis] at h
  | num q => simp [wellShapedAnalysis] at h
  | bool b => simp [wellShapedAnalysis] at h
  | str s => simp [wellShapedAnalysis] at h
  | arr xs => simp [wellShapedAnalysis] at h

/-- C7 counterexample: extract_loan_fields raises (AttributeError) on an
analysis result whose key/value evidence list contains the non-dict entry 42,
so it is not total on arbitrarily shaped input. -/
theorem extract_raises_on_nondict_entry :
    extract_loan_fields c7BadInput = .error .attributeError := rfl

/-- Witness for C7 at a small well-shaped analysis result. -/
theorem extract_total_on_wellShaped_witness :
    (∃ r, extract_loan_fields
      (mkAnalysisWithPairs [("Borrower Name", "Jane")]) = .ok r) ∧
    extract_loan_fields (JValue.obj []) = .ok {} :=
  extract_total_on_wellShaped
    (mkAnalysisWithPairs [("Borrower Name", "Jane")]) (by decide)

/-- Witness for C9 on oracles with and without the operation handle. -/
theorem operation_location_gate_witness :
    analyze_document noLocOracle (.str "doc")
      = (.error (.valueError "No Operation-Location header in response"),
         [.submitted (.str "doc")]) ∧
    (analyze_document locOracle (.str "doc")).2.take 2
      = [.submitted (.str "doc"), .polled "https://example.test/op/1" 0] :=
  ⟨(operation_location_gate noLocOracle (.str "doc") (by decide)).1 (Or.inl rfl),
   (operation_location_gate locOracle (.str "doc") (by decide)).2
     "https://example.test/op/1" rfl (by decide)⟩
